import Mathlib

/-! esp-blynk-app: virtual-pin handlers and WiFi life cycle of `main/main.c`

A shallow embedding of `main/main.c`.  Every call that leaves the file (LEDC and
ADC drivers, the FreeRTOS tick counter, the WiFi library, the Blynk client) is
recorded, in program order, in a trace; what such a call returns is read from
an environment.  C strings are lists of characters, machine integers are
`Nat`/`Int` with the reductions of their width written out.
-/

set_option linter.unusedVariables false

namespace EspBlynk

/-! ## C library: `atoi` -/

/-- C `isspace` in the "C" locale: space, and `\t \n \v \f \r` (9..13). -/
def isspace (c : Char) : Bool :=
  c.toNat == 32 || (9 ≤ c.toNat && c.toNat ≤ 13)

/-- C `isdigit`: `'0'..'9'`. -/
def isdigit (c : Char) : Bool :=
  48 ≤ c.toNat && c.toNat ≤ 57

/-- The digit loop of `strtol` in base 10: consume the leading run of decimal
digits, accumulating their value; stop at the first other character (or at
the terminating NUL, the end of the list). -/
def digitsValue (acc : Nat) : List Char → Nat
  | [] => acc
  | c :: cs => if isdigit c then digitsValue (acc * 10 + (c.toNat - 48)) cs else acc

def INT_MAX : Int := 2147483647

def INT_MIN : Int := -2147483648

/-- The sign and range step of `strtol` for a 32-bit `long`: the magnitude is
negated after a minus sign, and a value out of range is replaced by the
nearest bound. -/
def strtol_result (neg : Bool) (v : Nat) : Int :=
  if neg then (if INT_MIN ≤ -(v : Int) then -(v : Int) else INT_MIN)
  else (if (v : Int) ≤ INT_MAX then (v : Int) else INT_MAX)

/-- C `atoi(s)` of the C library (newlib on the ESP32), which is
`(int) strtol(s, NULL, 10)`: skip white space, take one optional sign, read
the leading decimal digits.  No digits give 0; it never fails. -/
def atoi (s : List Char) : Int :=
  match s.dropWhile isspace with
  | [] => 0
  | c :: r =>
    if c = '-' then strtol_result true (digitsValue 0 r)
    else if c = '+' then strtol_result false (digitsValue 0 r)
    else strtol_result false (digitsValue 0 (c :: r))

/-! ## Constants of `main.c` -/

/-- `enum { VP_PWM = 0, VP_ADC, VP_UPTIME }`. -/
def VP_PWM : Int := 0

def VP_ADC : Int := 1

def VP_UPTIME : Int := 2

def ADC_CHANNEL : Nat := 4

/-- `ledc_mode_t` of the LEDC driver. -/
inductive ledc_mode_t where
  | LEDC_HIGH_SPEED_MODE
  | LEDC_LOW_SPEED_MODE
  deriving DecidableEq, Repr

/-- `ledc_channel_t` of the LEDC driver: channel `n` is `LEDC_CHANNEL_n`. -/
structure ledc_channel_t where
  index : Nat
  deriving DecidableEq, Repr

def PWM_MODE : ledc_mode_t := ledc_mode_t.LEDC_HIGH_SPEED_MODE

def PWM_CHANNEL : ledc_channel_t := ⟨0⟩

def ESP_OK : Int := 0

/-- Command codes of the Blynk client that `main.c` names. -/
inductive blynk_cmd_t where
  | BLYNK_CMD_HARDWARE
  deriving DecidableEq, Repr

/-- One variadic argument of `blynk_send`, tagged by its format letter:
`s` a string, `i` an `int`, `L` an `unsigned long`. -/
inductive SendArg where
  | s (str : String)
  | i (val : Int)
  | L (val : Nat)
  deriving DecidableEq, Repr

/-- `wifi_config_t`, the station members `main.c` touches.  A byte array holding
a C string is the list of its characters; `first_byte` reads element 0 of
such an array. -/
structure wifi_config_t where
  ssid : List Char
  password : List Char
  deriving DecidableEq, Repr

/-- Network events `event_handler` switches on; every other event id of the
system event loop is `other`. -/
inductive system_event_id_t where
  | SYSTEM_EVENT_STA_START
  | SYSTEM_EVENT_STA_CONNECTED
  | SYSTEM_EVENT_STA_GOT_IP
  | SYSTEM_EVENT_STA_DISCONNECTED
  | other (id : Nat)
  deriving DecidableEq, Repr

structure system_event_t where
  event_id : system_event_id_t
  deriving DecidableEq, Repr

/-! ## Calls leaving `main.c` -/

/-- A call made by `main.c` into a driver, the operating system or a library,
with the arguments passed. -/
inductive Call where
  | ESP_LOGI (msg : String)
  | esp_wifi_get_auto_connect
  | esp_wifi_connect
  | tcpip_adapter_create_ip6_linklocal
  | esp_wifi_init
  | esp_wifi_set_storage
  | esp_wifi_set_mode
  | esp_wifi_get_config
  | esp_wifi_set_config (cfg : wifi_config_t)
  | esp_wifi_start
  | ledc_set_duty (mode : ledc_mode_t) (channel : ledc_channel_t) (duty : Nat)
  | ledc_update_duty (mode : ledc_mode_t) (channel : ledc_channel_t)
  | adc1_get_voltage (channel : Nat)
  | xTaskGetTickCount
  | blynk_send (c : Nat) (cmd : blynk_cmd_t) (id : Nat) (fmt : String) (args : List SendArg)
  | adc1_config_width (width : Nat)
  | adc1_config_channel_atten (channel : Nat)
  | ledc_timer_config (bit_num freq_hz : Nat) (speed_mode : ledc_mode_t) (timer_num : Nat)
  | ledc_channel_config (channel : ledc_channel_t) (duty gpio_num : Nat)
      (speed_mode : ledc_mode_t) (timer_sel : Nat)
  | nvs_flash_init
  | tcpip_adapter_init
  | esp_event_loop_init
  | malloc
  | blynk_init (c : Nat)
  | blynk_set_options (c : Nat) (token server : List Char)
  | blynk_set_state_handler (c : Nat)
  | blynk_set_handler (c : Nat) (name : String)
  | blynk_start (c : Nat)
  deriving DecidableEq, Repr

/-- The calls made so far, oldest first. -/
abbrev Trace := List Call

/-- How a C function ends: it returns (with a value), or `ESP_ERROR_CHECK`
aborts the program, or it reads outside an array (undefined behaviour). -/
inductive Outcome (α : Type) where
  | returned (val : α) (t : Trace)
  | aborted (t : Trace)
  | undefined
  deriving DecidableEq, Repr

/-- Sequencing of C statements: continue only after a normal return. -/
def Outcome.andThen {α β : Type} (o : Outcome α) (k : α → Trace → Outcome β) : Outcome β :=
  match o with
  | .returned v t => k v t
  | .aborted t => .aborted t
  | .undefined => .undefined

/-- `ESP_ERROR_CHECK(x)`: go on when `x` is `ESP_OK`, abort otherwise. -/
def ESP_ERROR_CHECK (rc : Int) (t : Trace) : Outcome Unit :=
  if rc = ESP_OK then .returned () t else .aborted t

/-- Reading `argv[i]`: defined only inside the argument vector. -/
def argvAt (argv : List (List Char)) (i : Nat) (t : Trace) : Outcome (List Char) :=
  match argv.get? i with
  | some a => .returned a t
  | none => .undefined

/-- Values the build configuration supplies to `main.c`. -/
structure Config where
  WIFI_SSID : List Char
  WIFI_PASS : List Char
  BLYNK_TOKEN : List Char
  BLYNK_SERVER : List Char
  configTICK_RATE_HZ : Nat
  deriving DecidableEq, Repr

/-- Modelled from the spec: `portTICK_RATE_MS`, a macro defined outside
`main.c`.  Uptime is the tick counter divided by the tick rate, so the macro
is the tick period in milliseconds of a counter running at
`configTICK_RATE_HZ` ticks per second, FreeRTOS's
`(TickType_t) 1000 / configTICK_RATE_HZ`. -/
def portTICK_RATE_MS (cfg : Config) : Nat :=
  1000 / (cfg.configTICK_RATE_HZ % 2 ^ 32)

/-- What the calls leaving `main.c` return when they are made. -/
structure Env where
  adc1_voltage : Int
  tick_count : Nat
  auto_connect_rc : Int
  auto_connect : Bool
  nvs_flash_init_rc : Int
  esp_event_loop_init_rc : Int
  esp_wifi_init_rc : Int
  esp_wifi_set_storage_rc : Int
  esp_wifi_set_mode_rc : Int
  esp_wifi_get_config_rc : Int
  stored_config : wifi_config_t
  esp_wifi_set_config_rc : Int
  esp_wifi_start_rc : Int
  client : Nat
  deriving DecidableEq, Repr

/-! ## Virtual-pin handlers -/

/-- Conversion of an `int` to `uint32_t`. -/
def toUInt32 (x : Int) : Nat := (x % 4294967296).toNat

/-- `vw_handler` (main.c:117-125). -/
def vw_handler (c id : Nat) (cmd : List Char) (argc : Int) (argv : List (List Char))
    (data : Nat) (t : Trace) : Outcome Unit :=
  if argc > 1 then
    (argvAt argv 0 t).andThen fun a0 t =>
      if atoi a0 = VP_PWM then
        (argvAt argv 1 t).andThen fun a1 t =>
          let value : Nat := toUInt32 (atoi a1)
          let t := t ++ [Call.ledc_set_duty PWM_MODE PWM_CHANNEL value]
          let t := t ++ [Call.ledc_update_duty PWM_MODE PWM_CHANNEL]
          .returned () t
      else .returned () t
  else .returned () t

/-- The uptime expression of `vr_handler` (main.c:148):
`(unsigned long long)xTaskGetTickCount() * portTICK_RATE_MS / 1000`, the
32-bit tick count widened to 64 bits, the product taken in 64 bits, and the
quotient narrowed to the 32-bit `unsigned long`. -/
def uptime_value (ticks portTICK_RATE_MS : Nat) : Nat :=
  (((ticks % 2 ^ 32) * (portTICK_RATE_MS % 2 ^ 64)) % 2 ^ 64 / 1000) % 2 ^ 32

/-- `vr_handler` (main.c:128-155). -/
def vr_handler (cfg : Config) (env : Env) (c id : Nat) (cmd : List Char) (argc : Int)
    (argv : List (List Char)) (data : Nat) (t : Trace) : Outcome Unit :=
  if argc = 0 then .returned () t
  else
    (argvAt argv 0 t).andThen fun a0 t =>
      let pin : Int := atoi a0
      if pin = VP_ADC then
        let t := t ++ [Call.adc1_get_voltage ADC_CHANNEL]
        let value : Int := env.adc1_voltage
        let t := t ++ [Call.blynk_send c blynk_cmd_t.BLYNK_CMD_HARDWARE 0 "sii"
          [SendArg.s "vw", SendArg.i VP_ADC, SendArg.i value]]
        .returned () t
      else if pin = VP_UPTIME then
        let t := t ++ [Call.xTaskGetTickCount]
        let value : Nat := uptime_value env.tick_count (portTICK_RATE_MS cfg)
        let t := t ++ [Call.blynk_send c blynk_cmd_t.BLYNK_CMD_HARDWARE 0 "siL"
          [SendArg.s "vw", SendArg.i VP_UPTIME, SendArg.L value]]
        .returned () t
      else .returned () t

/-! ## The pulse output as the LEDC driver records it -/

/-- Duty registers of the channel `main.c` drives: `pending` is what
`ledc_set_duty` last stored, `level` is what the output runs at. -/
structure LedcState where
  pending : Nat
  level : Nat
  deriving DecidableEq, Repr

/-- Modelled from the spec: the Peripheral Adapter's record of the output
level, kept by the LEDC driver outside `main.c`.  Effect of one call on the
duty registers of `PWM_CHANNEL` in `PWM_MODE`: `ledc_channel_config` loads the
initial duty, `ledc_set_duty` stores a new duty, `ledc_update_duty` makes the
stored duty the running one.  Duties are taken within the timer resolution;
no other call touches the channel. -/
def ledc_step (s : LedcState) : Call → LedcState
  | Call.ledc_channel_config ch duty _ m _ =>
    if m = PWM_MODE ∧ ch = PWM_CHANNEL then ⟨duty, duty⟩ else s
  | Call.ledc_set_duty m ch duty =>
    if m = PWM_MODE ∧ ch = PWM_CHANNEL then ⟨duty, s.level⟩ else s
  | Call.ledc_update_duty m ch =>
    if m = PWM_MODE ∧ ch = PWM_CHANNEL then ⟨s.pending, s.pending⟩ else s
  | _ => s

/-- The output level the adapter has recorded after the calls of a trace. -/
def output_level (t : Trace) : Nat :=
  (t.foldl ledc_step ⟨0, 0⟩).level

/-- The responses sent over session `c`, oldest first. -/
def responses (c : Nat) (t : Trace) : List Call :=
  t.filter fun call =>
    match call with
    | Call.blynk_send c1 _ _ _ _ => c1 = c
    | _ => false

/-- Whether a call is one into the Peripheral Adapter (pulse output or
analog input). -/
def isAdapterCall : Call → Bool
  | Call.ledc_set_duty _ _ _ => true
  | Call.ledc_update_duty _ _ => true
  | Call.adc1_get_voltage _ => true
  | _ => false

/-! ## Network life cycle -/

/-- `event_handler` (main.c:50-82). -/
def event_handler (env : Env) (arg : Nat) (event : system_event_t) (t : Trace) : Outcome Int :=
  (match event.event_id with
    | system_event_id_t.SYSTEM_EVENT_STA_START =>
      let t := t ++ [Call.ESP_LOGI "WiFi started"]
      let t := t ++ [Call.esp_wifi_get_auto_connect]
      (ESP_ERROR_CHECK env.auto_connect_rc t).andThen fun _ t =>
        if env.auto_connect then Outcome.returned () (t ++ [Call.esp_wifi_connect])
        else Outcome.returned () t
    | system_event_id_t.SYSTEM_EVENT_STA_CONNECTED =>
      Outcome.returned () (t ++ [Call.tcpip_adapter_create_ip6_linklocal])
    | system_event_id_t.SYSTEM_EVENT_STA_GOT_IP => Outcome.returned () t
    | system_event_id_t.SYSTEM_EVENT_STA_DISCONNECTED =>
      Outcome.returned () (t ++ [Call.esp_wifi_connect])
    | system_event_id_t.other _ => Outcome.returned () t).andThen fun _ t =>
  Outcome.returned ESP_OK t

/-- The system event loop delivering events to `event_handler` one at a time,
in arrival order, each with the environment of its moment; the result lists
the handler's return values. -/
def deliver : List (Env × system_event_t) → Trace → Outcome (List Int)
  | [], t => Outcome.returned [] t
  | (env, ev) :: rest, t =>
    (event_handler env 0 ev t).andThen fun rc t =>
      (deliver rest t).andThen fun rcs t => Outcome.returned (rc :: rcs) t

/-- First byte of a character array holding a C string. -/
def first_byte (s : List Char) : Nat :=
  match s with
  | [] => 0
  | c :: _ => c.toNat

/-- `strlcpy(dst, src, size)` into a zeroed `dst`: the characters of `src`
before its NUL, at most `size - 1` of them. -/
def strlcpy (src : List Char) (size : Nat) : List Char :=
  (src.takeWhile fun c => c.toNat != 0).take (size - 1)

/-- `wifi_conn_init` (main.c:84-109). -/
def wifi_conn_init (cfg : Config) (env : Env) (t : Trace) : Outcome Unit :=
  let t := t ++ [Call.esp_wifi_init]
  (ESP_ERROR_CHECK env.esp_wifi_init_rc t).andThen fun _ t =>
  let t := t ++ [Call.esp_wifi_set_storage]
  (ESP_ERROR_CHECK env.esp_wifi_set_storage_rc t).andThen fun _ t =>
  let t := t ++ [Call.esp_wifi_set_mode]
  (ESP_ERROR_CHECK env.esp_wifi_set_mode_rc t).andThen fun _ t =>
  let t := t ++ [Call.esp_wifi_get_config]
  (ESP_ERROR_CHECK env.esp_wifi_get_config_rc t).andThen fun _ t =>
  let wifi_config : wifi_config_t := env.stored_config
  let start : Trace → Outcome Unit := fun t =>
    let t := t ++ [Call.esp_wifi_start]
    ESP_ERROR_CHECK env.esp_wifi_start_rc t
  if first_byte wifi_config.ssid = 0 then
    let wifi_config : wifi_config_t := ⟨[], []⟩
    let wifi_config : wifi_config_t := ⟨strlcpy cfg.WIFI_SSID 32, wifi_config.password⟩
    let wifi_config : wifi_config_t := ⟨wifi_config.ssid, strlcpy cfg.WIFI_PASS 64⟩
    if first_byte wifi_config.ssid = 0 then Outcome.returned () t
    else
      let t := t ++ [Call.ESP_LOGI "Setting WiFi configuration SSID %s..."]
      let t := t ++ [Call.esp_wifi_set_config wifi_config]
      (ESP_ERROR_CHECK env.esp_wifi_set_config_rc t).andThen fun _ t => start t
  else start t

def ADC_BITS : Nat := 10

/-- `ADC_WIDTH(x)` is `((x) - 9)`. -/
def ADC_WIDTH (x : Nat) : Nat := x - 9

def PWM_PIN : Nat := 12

def PWM_BITS : Nat := 10

def PWM_FREQ : Nat := 1000

/-- `LEDC_TIMER_0`. -/
def PWM_TIMER : Nat := 0

/-- `init_adc` (main.c:157-160). -/
def init_adc (t : Trace) : Trace :=
  t ++ [Call.adc1_config_width (ADC_WIDTH ADC_BITS)] ++ [Call.adc1_config_channel_atten ADC_CHANNEL]

/-- `init_pwm` (main.c:162-180). -/
def init_pwm (t : Trace) : Trace :=
  t ++ [Call.ledc_timer_config PWM_BITS PWM_FREQ PWM_MODE PWM_TIMER]
    ++ [Call.ledc_channel_config PWM_CHANNEL 0 PWM_PIN PWM_MODE PWM_TIMER]

/-- `app_main` (main.c:182-213). -/
def app_main (cfg : Config) (env : Env) (t : Trace) : Outcome Unit :=
  let t := init_adc t
  let t := init_pwm t
  let t := t ++ [Call.nvs_flash_init]
  (ESP_ERROR_CHECK env.nvs_flash_init_rc t).andThen fun _ t =>
  let t := t ++ [Call.tcpip_adapter_init]
  let t := t ++ [Call.esp_event_loop_init]
  (ESP_ERROR_CHECK env.esp_event_loop_init_rc t).andThen fun _ t =>
  (wifi_conn_init cfg env t).andThen fun _ t =>
  let t := t ++ [Call.malloc]
  let client : Nat := env.client
  let t := t ++ [Call.blynk_init client]
  let t := t ++ [Call.blynk_set_options client cfg.BLYNK_TOKEN cfg.BLYNK_SERVER]
  let t := t ++ [Call.blynk_set_state_handler client]
  let t := t ++ [Call.blynk_set_handler client "vw"]
  let t := t ++ [Call.blynk_set_handler client "vr"]
  let t := t ++ [Call.blynk_start client]
  Outcome.returned () t

/-- The text `atoi` reads as a number: after leading white space and one
optional sign, a decimal digit. -/
def hasLeadingInteger (s : List Char) : Bool :=
  match s.dropWhile isspace with
  | [] => false
  | c :: r =>
    if c = '-' ∨ c = '+' then
      (match r with
        | [] => false
        | d :: _ => isdigit d)
    else isdigit c

/-- The text of a decimal integer: an optional minus sign and then decimal
digits only, at least one. -/
def isDecimalInteger (s : List Char) : Bool :=
  match s with
  | [] => false
  | c :: r =>
    if c = '-' then (!r.isEmpty && r.all isdigit) else (c :: r).all isdigit

/-- C string of a Lean string literal. -/
def cstr (s : String) : List Char := s.toList


/-- The calls on record when a function has ended, by return or by abort. -/
def Outcome.calls {α : Type} : Outcome α → Trace
  | Outcome.returned _ t => t
  | Outcome.aborted t => t
  | Outcome.undefined => []

/-- Whether a call hands a station configuration to the WiFi library or starts
the WiFi interface. -/
def usesWifiConfig : Call → Bool
  | Call.esp_wifi_set_config _ => true
  | Call.esp_wifi_start => true
  | _ => false

/-- A build without network credentials. -/
def blankConfig : Config := ⟨[], [], cstr "token", cstr "blynk-cloud.com", 100⟩

/-- An environment in which every call succeeds, nothing is stored in flash,
and the client is allocated at handle 1. -/
def blankEnv : Env := ⟨0, 0, 0, true, 0, 0, 0, 0, 0, 0, ⟨[], []⟩, 0, 0, 1⟩

/-- The event a lost association raises. -/
def disconnected : system_event_t := ⟨system_event_id_t.SYSTEM_EVENT_STA_DISCONNECTED⟩

/-- The spec's elapsed seconds since boot: the tick count divided by the tick
rate, as an exact fraction. -/
def elapsed_seconds (configTICK_RATE_HZ ticks : Nat) : ℚ :=
  (ticks : ℚ) / (configTICK_RATE_HZ : ℚ)

/-! ## Lemmas on `atoi` -/

theorem digitChar_isdigit (k : Nat) (h : k < 10) :
    isdigit (Nat.digitChar k) = true ∧ (Nat.digitChar k).toNat - 48 = k := by
  interval_cases k <;> exact ⟨by decide, by decide⟩

theorem isdigit_not_space {c : Char} (h : isdigit c = true) :
    isspace c = false ∧ c ≠ '-' ∧ c ≠ '+' := by
  simp only [isdigit, Bool.and_eq_true, decide_eq_true_eq] at h
  refine ⟨?_, ?_, ?_⟩
  · simp only [isspace, Bool.or_eq_false_iff, beq_eq_false_iff_ne, ne_eq, Bool.and_eq_false_imp,
      decide_eq_true_eq, decide_eq_false_iff_not]
    omega
  · rintro rfl
    revert h
    decide
  · rintro rfl
    revert h
    decide

/-- The digits `Nat.toDigitsCore` puts in front of `ds` are decimal digits
that the digit loop of `strtol` reads back as `n`. -/
theorem toDigitsCore_digitsValue (fuel : Nat) : ∀ (n : Nat) (ds : List Char), n < fuel →
    ∃ pre : List Char, Nat.toDigitsCore 10 fuel n ds = pre ++ ds ∧ pre ≠ [] ∧
      (∀ c ∈ pre, isdigit c = true) ∧
      ∀ (acc : Nat) (rest : List Char),
        digitsValue acc (pre ++ rest) = digitsValue (acc * 10 ^ pre.length + n) rest := by
  induction fuel with
  | zero => intro n ds h; omega
  | succ fuel ih =>
    intro n ds h
    have hd := digitChar_isdigit (n % 10) (Nat.mod_lt n (by norm_num))
    by_cases h0 : n / 10 = 0
    · refine ⟨[Nat.digitChar (n % 10)], ?_, by simp, ?_, ?_⟩
      · simp [Nat.toDigitsCore, h0]
      · intro c hc
        simp only [List.mem_singleton] at hc
        rw [hc]; exact hd.1
      · intro acc rest
        have hn : n % 10 = n := by omega
        simp only [List.singleton_append, digitsValue, hd.1, if_true, hd.2, List.length_singleton,
          pow_one]
        rw [hn]
        rfl
    · have hlt : n / 10 < fuel := by omega
      obtain ⟨pre, hpre, hne, hdig, hval⟩ := ih (n / 10) (Nat.digitChar (n % 10) :: ds) hlt
      refine ⟨pre ++ [Nat.digitChar (n % 10)], ?_, by simp, ?_, ?_⟩
      · simp [Nat.toDigitsCore, h0, hpre]
      · intro c hc
        rcases List.mem_append.1 hc with hc | hc
        · exact hdig c hc
        · simp only [List.mem_singleton] at hc
          rw [hc]; exact hd.1
      · intro acc rest
        rw [List.append_assoc, hval]
        simp only [List.singleton_append, digitsValue, hd.1, if_true, hd.2, List.length_append,
          List.length_singleton, pow_succ]
        congr 1
        have := Nat.div_add_mod n 10
        nlinarith [this]

/-- `atoi` reads the decimal text of `n` back as `n`, for `n` an `int`. -/
theorem atoi_toDigits (n : Nat) (h : n ≤ 2147483647) : atoi (Nat.toDigits 10 n) = (n : Int) := by
  obtain ⟨pre, hpre, hne, hdig, hval⟩ := toDigitsCore_digitsValue (n + 1) n [] (Nat.lt_succ_self n)
  cases pre with
  | nil => exact absurd rfl hne
  | cons c tl =>
    have hc := isdigit_not_space (hdig c (List.mem_cons_self c tl))
    have hv := hval 0 []
    simp only [List.append_nil, zero_mul, zero_add] at hv hpre
    simp only [atoi, Nat.toDigits, hpre, List.dropWhile_cons, hc.1, Bool.false_eq_true, if_false,
      hc.2.1, hc.2.2, hv, strtol_result, INT_MAX]
    simp only [digitsValue]
    rw [if_pos (by exact_mod_cast h)]

/-! ## Lemmas on the handlers -/

theorem atoi_zero_text : atoi (cstr "0") = VP_PWM := by decide

theorem length_two_gt (a b : List Char) (rest : List (List Char)) :
    ((a :: b :: rest).length : Int) > 1 := by
  simp only [List.length_cons]
  push_cast
  omega

/-- What `vw_handler` does with two or more arguments: a duty write when the
first decodes to `VP_PWM`, nothing otherwise. -/
theorem vw_handler_two (c id data : Nat) (cmd a0 a1 : List Char) (rest : List (List Char))
    (t : Trace) :
    vw_handler c id cmd ((a0 :: a1 :: rest).length : Int) (a0 :: a1 :: rest) data t =
      if atoi a0 = VP_PWM then
        Outcome.returned () (t ++ [Call.ledc_set_duty PWM_MODE PWM_CHANNEL (toUInt32 (atoi a1)),
          Call.ledc_update_duty PWM_MODE PWM_CHANNEL])
      else Outcome.returned () t := by
  unfold vw_handler
  rw [if_pos (length_two_gt a0 a1 rest)]
  simp only [argvAt, List.get?, Outcome.andThen]
  split <;> simp

theorem output_level_write (t : Trace) (v : Nat) :
    output_level (t ++ [Call.ledc_set_duty PWM_MODE PWM_CHANNEL v,
      Call.ledc_update_duty PWM_MODE PWM_CHANNEL]) = v := by
  simp [output_level, List.foldl_append, ledc_step]

theorem responses_write (c : Nat) (t : Trace) (v : Nat) :
    responses c (t ++ [Call.ledc_set_duty PWM_MODE PWM_CHANNEL v,
      Call.ledc_update_duty PWM_MODE PWM_CHANNEL]) = responses c t := by
  simp [responses, List.filter_append]

theorem toUInt32_small (v : Nat) (h : v < 4294967296) : toUInt32 (v : Int) = v := by
  unfold toUInt32
  have : ((v : Int) % 4294967296) = (v : Int) := Int.emod_eq_of_lt (by positivity) (by exact_mod_cast h)
  rw [this]
  simp

theorem atoi_no_integer (s : List Char) (h : hasLeadingInteger s = false) : atoi s = 0 := by
  unfold hasLeadingInteger at h
  unfold atoi
  cases hs : s.dropWhile isspace with
  | nil => rfl
  | cons c r =>
    rw [hs] at h
    simp only at h ⊢
    by_cases hm : c = '-'
    · simp only [hm, true_or, if_true] at h ⊢
      cases r with
      | nil => decide
      | cons d r2 =>
        simp only at h
        simp [digitsValue, h, strtol_result, INT_MIN]
    · by_cases hp : c = '+'
      · simp only [hp, or_true, if_true] at h ⊢
        rw [if_neg (by decide)]
        cases r with
        | nil => decide
        | cons d r2 =>
          simp only at h
          simp [digitsValue, h, strtol_result, INT_MAX]
      · simp only [hm, hp, or_self, if_false] at h ⊢
        simp [digitsValue, h, strtol_result, INT_MAX]

/-! ## The write handler -/

/-- C1: for every v with 0 <= v <= 1023, a virtual write whose arguments are
"0" and the decimal text of v (further arguments allowed) makes exactly the
two calls ledc_set_duty(v) and ledc_update_duty on the PWM channel, so the
recorded output level is v afterwards, and sends no response on any session;
["0", "300"] gives level 300 and ["0", "512"] gives level 512. -/
theorem vw_handler_sets_output_level (v : Nat) (hv : v ≤ 1023) (c id data : Nat)
    (cmd : List Char) (rest : List (List Char)) (t : Trace) :
    (vw_handler c id cmd ((cstr "0" :: Nat.toDigits 10 v :: rest).length : Int)
        (cstr "0" :: Nat.toDigits 10 v :: rest) data t =
      Outcome.returned () (t ++ [Call.ledc_set_duty PWM_MODE PWM_CHANNEL v,
        Call.ledc_update_duty PWM_MODE PWM_CHANNEL])) ∧
    output_level (t ++ [Call.ledc_set_duty PWM_MODE PWM_CHANNEL v,
        Call.ledc_update_duty PWM_MODE PWM_CHANNEL]) = v ∧
    (∀ c1 : Nat, responses c1 (t ++ [Call.ledc_set_duty PWM_MODE PWM_CHANNEL v,
        Call.ledc_update_duty PWM_MODE PWM_CHANNEL]) = responses c1 t) ∧
    (vw_handler c id cmd 2 [cstr "0", cstr "300"] data t =
      Outcome.returned () (t ++ [Call.ledc_set_duty PWM_MODE PWM_CHANNEL 300,
        Call.ledc_update_duty PWM_MODE PWM_CHANNEL])) ∧
    (vw_handler c id cmd 2 [cstr "0", cstr "512"] data t =
      Outcome.returned () (t ++ [Call.ledc_set_duty PWM_MODE PWM_CHANNEL 512,
        Call.ledc_update_duty PWM_MODE PWM_CHANNEL])) := by
  have key : ∀ (n : Nat) (r : List (List Char)), n ≤ 1023 →
      vw_handler c id cmd ((cstr "0" :: Nat.toDigits 10 n :: r).length : Int)
        (cstr "0" :: Nat.toDigits 10 n :: r) data t =
      Outcome.returned () (t ++ [Call.ledc_set_duty PWM_MODE PWM_CHANNEL n,
        Call.ledc_update_duty PWM_MODE PWM_CHANNEL]) := by
    intro n r hn
    rw [vw_handler_two, if_pos atoi_zero_text, atoi_toDigits n (by omega),
      toUInt32_small n (by omega)]
  refine ⟨key v rest hv, output_level_write t v, fun c1 => responses_write c1 t v, ?_, ?_⟩
  · exact key 300 [] (by norm_num)
  · exact key 512 [] (by norm_num)

/-- Witness of C1 at v = 1023, with a third argument and earlier calls in the
trace. -/
theorem vw_handler_sets_output_level_witness :
    (1023 ≤ 1023) ∧
    vw_handler 7 0 (cstr "vw") 3 [cstr "0", cstr "1023", cstr "x"] 0
        [Call.ledc_set_duty PWM_MODE PWM_CHANNEL 5] =
      Outcome.returned () [Call.ledc_set_duty PWM_MODE PWM_CHANNEL 5,
        Call.ledc_set_duty PWM_MODE PWM_CHANNEL 1023,
        Call.ledc_update_duty PWM_MODE PWM_CHANNEL] :=
  ⟨le_refl 1023, (vw_handler_sets_output_level 1023 (le_refl 1023) 7 0 0 (cstr "vw") [cstr "x"]
    [Call.ledc_set_duty PWM_MODE PWM_CHANNEL 5]).1⟩

/-- C6: a virtual write with zero or one argument, whatever that argument is,
makes no call at all (no duty set, no duty update, no response) and returns
normally; in particular it reads no argument that is not there. -/
theorem vw_handler_needs_two_arguments (argv : List (List Char)) (h : argv.length ≤ 1)
    (c id data : Nat) (cmd : List Char) (t : Trace) :
    vw_handler c id cmd (argv.length : Int) argv data t = Outcome.returned () t := by
  unfold vw_handler
  rw [if_neg]
  have : (argv.length : Int) ≤ 1 := by exact_mod_cast h
  omega

/-- Witness of C6: no argument, and the single argument "0". -/
theorem vw_handler_needs_two_arguments_witness :
    ([] : List (List Char)).length ≤ 1 ∧ [cstr "0"].length ≤ 1 ∧
    vw_handler 7 0 (cstr "vw") 0 [] 0 [] = Outcome.returned () [] ∧
    vw_handler 7 0 (cstr "vw") 1 [cstr "0"] 0 [] = Outcome.returned () [] :=
  ⟨by decide, by decide,
    vw_handler_needs_two_arguments [] (by decide) 7 0 0 (cstr "vw") [],
    vw_handler_needs_two_arguments [cstr "0"] (by decide) 7 0 0 (cstr "vw") []⟩

/-- C7, as stated, fails: the pin text "abc" is not the text of a decimal
integer, yet ["abc", "5"] is not ignored, the duty is set to 5; and the value
text "abc" in ["0", "abc"] is not ignored either, the duty is set to 0. -/
theorem vw_handler_malformed_not_ignored :
    isDecimalInteger (cstr "abc") = false ∧
    vw_handler 7 0 (cstr "vw") 2 [cstr "abc", cstr "5"] 0 [] =
      Outcome.returned () [Call.ledc_set_duty PWM_MODE PWM_CHANNEL 5,
        Call.ledc_update_duty PWM_MODE PWM_CHANNEL] ∧
    vw_handler 7 0 (cstr "vw") 2 [cstr "0", cstr "abc"] 0 [] =
      Outcome.returned () [Call.ledc_set_duty PWM_MODE PWM_CHANNEL 0,
        Call.ledc_update_duty PWM_MODE PWM_CHANNEL] := by
  refine ⟨by decide, ?_, ?_⟩
  · exact vw_handler_two 7 0 0 (cstr "vw") (cstr "abc") (cstr "5") [] []
  · exact vw_handler_two 7 0 0 (cstr "vw") (cstr "0") (cstr "abc") [] []

/-- C7, amended: a virtual write with at least two arguments is ignored (no
call to the adapter, no response, the trace is left as it was) exactly when
its pin argument decodes, by atoi, to a number other than 0 (PWM_OUTPUT). -/
theorem vw_handler_ignores_iff_other_pin (c id data : Nat) (cmd a0 a1 : List Char)
    (rest : List (List Char)) (t : Trace) :
    vw_handler c id cmd ((a0 :: a1 :: rest).length : Int) (a0 :: a1 :: rest) data t =
      Outcome.returned () t ↔ atoi a0 ≠ VP_PWM := by
  rw [vw_handler_two]
  by_cases h : atoi a0 = VP_PWM
  · simp only [h, if_true, ne_eq, not_true_eq_false, iff_false]
    intro hc
    have hl := congrArg (fun o => match o with
      | Outcome.returned _ t => t.length
      | _ => 0) hc
    simp at hl
  · simp [h]

/-- C8: a value text with no leading decimal integer (such as "abc" or the
empty text) is decoded as 0 and not rejected: the virtual write ["0", s]
sets the duty to 0, and the recorded output level is 0 afterwards. -/
theorem vw_handler_unparsable_value_is_zero (s : List Char) (h : hasLeadingInteger s = false)
    (c id data : Nat) (cmd : List Char) (rest : List (List Char)) (t : Trace) :
    atoi s = 0 ∧
    vw_handler c id cmd ((cstr "0" :: s :: rest).length : Int) (cstr "0" :: s :: rest) data t =
      Outcome.returned () (t ++ [Call.ledc_set_duty PWM_MODE PWM_CHANNEL 0,
        Call.ledc_update_duty PWM_MODE PWM_CHANNEL]) ∧
    output_level (t ++ [Call.ledc_set_duty PWM_MODE PWM_CHANNEL 0,
        Call.ledc_update_duty PWM_MODE PWM_CHANNEL]) = 0 := by
  refine ⟨atoi_no_integer s h, ?_, output_level_write t 0⟩
  rw [vw_handler_two, if_pos atoi_zero_text, atoi_no_integer s h]
  rfl

/-- Witness of C8 at the texts "abc" and "". -/
theorem vw_handler_unparsable_value_is_zero_witness :
    hasLeadingInteger (cstr "abc") = false ∧ hasLeadingInteger (cstr "") = false ∧
    vw_handler 7 0 (cstr "vw") 2 [cstr "0", cstr "abc"] 0
        [Call.ledc_set_duty PWM_MODE PWM_CHANNEL 9, Call.ledc_update_duty PWM_MODE PWM_CHANNEL] =
      Outcome.returned () [Call.ledc_set_duty PWM_MODE PWM_CHANNEL 9,
        Call.ledc_update_duty PWM_MODE PWM_CHANNEL,
        Call.ledc_set_duty PWM_MODE PWM_CHANNEL 0, Call.ledc_update_duty PWM_MODE PWM_CHANNEL] ∧
    vw_handler 7 0 (cstr "vw") 2 [cstr "0", cstr ""] 0 [] =
      Outcome.returned () [Call.ledc_set_duty PWM_MODE PWM_CHANNEL 0,
        Call.ledc_update_duty PWM_MODE PWM_CHANNEL] :=
  ⟨by decide, by decide,
    (vw_handler_unparsable_value_is_zero (cstr "abc") (by decide) 7 0 0 (cstr "vw") []
      [Call.ledc_set_duty PWM_MODE PWM_CHANNEL 9, Call.ledc_update_duty PWM_MODE PWM_CHANNEL]).2.1,
    (vw_handler_unparsable_value_is_zero (cstr "") (by decide) 7 0 0 (cstr "vw") [] []).2.1⟩

/-! ## The read handler -/

/-- What `vr_handler` does with one or more arguments. -/
theorem vr_handler_one (cfg : Config) (env : Env) (c id data : Nat) (cmd a0 : List Char)
    (rest : List (List Char)) (t : Trace) :
    vr_handler cfg env c id cmd ((a0 :: rest).length : Int) (a0 :: rest) data t =
      if atoi a0 = VP_ADC then
        Outcome.returned () (t ++ [Call.adc1_get_voltage ADC_CHANNEL,
          Call.blynk_send c blynk_cmd_t.BLYNK_CMD_HARDWARE 0 "sii"
            [SendArg.s "vw", SendArg.i VP_ADC, SendArg.i env.adc1_voltage]])
      else if atoi a0 = VP_UPTIME then
        Outcome.returned () (t ++ [Call.xTaskGetTickCount,
          Call.blynk_send c blynk_cmd_t.BLYNK_CMD_HARDWARE 0 "siL"
            [SendArg.s "vw", SendArg.i VP_UPTIME,
              SendArg.L (uptime_value env.tick_count (portTICK_RATE_MS cfg))]])
      else Outcome.returned () t := by
  unfold vr_handler
  have hlen : ((a0 :: rest).length : Int) ≠ 0 := by
    simp only [List.length_cons]
    push_cast
    omega
  rw [if_neg hlen]
  simp only [argvAt, List.get?, Outcome.andThen]
  split
  · simp
  · split <;> simp

theorem portTICK_RATE_MS_le (cfg : Config) : portTICK_RATE_MS cfg ≤ 1000 :=
  Nat.div_le_self _ _

/-- With a 32-bit tick count and a period of at most 1000 ms neither the
64-bit product nor the 32-bit result of the uptime expression wraps. -/
theorem uptime_value_exact (ticks p : Nat) (ht : ticks < 2 ^ 32) (hp : p ≤ 1000) :
    ticks * p < 2 ^ 64 ∧ ticks * p / 1000 < 2 ^ 32 ∧ uptime_value ticks p = ticks * p / 1000 := by
  have h1 : ticks * p ≤ ticks * 1000 := Nat.mul_le_mul_left ticks hp
  have h2 : ticks * p / 1000 ≤ ticks := by
    calc ticks * p / 1000 ≤ ticks * 1000 / 1000 := Nat.div_le_div_right h1
      _ = ticks := Nat.mul_div_cancel ticks (by norm_num)
  have h3 : ticks * p < 2 ^ 64 := by
    have : ticks * 1000 < 2 ^ 64 := by norm_num at ht ⊢; omega
    omega
  refine ⟨h3, by omega, ?_⟩
  unfold uptime_value
  rw [Nat.mod_eq_of_lt ht, Nat.mod_eq_of_lt (show p < 2 ^ 64 by norm_num; omega),
    Nat.mod_eq_of_lt h3, Nat.mod_eq_of_lt (by omega)]

theorem floor_within_one (n : Nat) : |((n / 1000 : Nat) : ℚ) - (n : ℚ) / 1000| < 1 := by
  have h := Nat.div_add_mod n 1000
  have hm := Nat.mod_lt n (show 1000 > 0 by norm_num)
  have hq : (n : ℚ) = 1000 * ((n / 1000 : Nat) : ℚ) + ((n % 1000 : Nat) : ℚ) := by
    exact_mod_cast h.symm
  have hm2 : ((n % 1000 : Nat) : ℚ) < 1000 := by exact_mod_cast hm
  have hm3 : (0 : ℚ) ≤ ((n % 1000 : Nat) : ℚ) := by positivity
  rw [abs_lt]
  constructor
  · rw [hq]; linarith
  · rw [hq]; linarith

/-- C2: for every measured value m, a virtual read whose first argument is "1"
makes exactly one analog read and then sends exactly one response on the
same session c, the hardware command with the fields "vw", 1, m; the recorded
output level stays as it was. -/
theorem vr_handler_adc_responds (cfg : Config) (env : Env) (c id data : Nat) (cmd : List Char)
    (rest : List (List Char)) (t : Trace) :
    vr_handler cfg env c id cmd ((cstr "1" :: rest).length : Int) (cstr "1" :: rest) data t =
      Outcome.returned () (t ++ [Call.adc1_get_voltage ADC_CHANNEL,
        Call.blynk_send c blynk_cmd_t.BLYNK_CMD_HARDWARE 0 "sii"
          [SendArg.s "vw", SendArg.i 1, SendArg.i env.adc1_voltage]]) ∧
    responses c (t ++ [Call.adc1_get_voltage ADC_CHANNEL,
        Call.blynk_send c blynk_cmd_t.BLYNK_CMD_HARDWARE 0 "sii"
          [SendArg.s "vw", SendArg.i 1, SendArg.i env.adc1_voltage]]) =
      responses c t ++ [Call.blynk_send c blynk_cmd_t.BLYNK_CMD_HARDWARE 0 "sii"
          [SendArg.s "vw", SendArg.i 1, SendArg.i env.adc1_voltage]] ∧
    output_level (t ++ [Call.adc1_get_voltage ADC_CHANNEL,
        Call.blynk_send c blynk_cmd_t.BLYNK_CMD_HARDWARE 0 "sii"
          [SendArg.s "vw", SendArg.i 1, SendArg.i env.adc1_voltage]]) = output_level t := by
  refine ⟨?_, ?_, ?_⟩
  · rw [vr_handler_one, if_pos (by decide)]
    rfl
  · simp [responses, List.filter_append]
  · simp [output_level, List.foldl_append, ledc_step]

/-- C5: a virtual read with no argument, or whose first argument decodes to a
number other than 1 (ADC_INPUT) and 2 (UPTIME), returns with the trace as it
was: no response is sent, no analog read is made, the pulse output is not
touched. -/
theorem vr_handler_ignores_other_pins (argv : List (List Char))
    (h : ∀ a0 ∈ argv.head?, atoi a0 ≠ VP_ADC ∧ atoi a0 ≠ VP_UPTIME)
    (cfg : Config) (env : Env) (c id data : Nat) (cmd : List Char) (t : Trace) :
    vr_handler cfg env c id cmd (argv.length : Int) argv data t = Outcome.returned () t := by
  cases argv with
  | nil => simp [vr_handler]
  | cons a0 rest =>
    have h0 := h a0 (by simp)
    rw [vr_handler_one, if_neg h0.1, if_neg h0.2]

/-- Witness of C5: no argument, and the pin texts "0", "-1", "3" and "abc". -/
theorem vr_handler_ignores_other_pins_witness :
    (atoi (cstr "0") = 0 ∧ atoi (cstr "-1") = -1 ∧ atoi (cstr "3") = 3 ∧ atoi (cstr "abc") = 0) ∧
    vr_handler blankConfig blankEnv 7 0 (cstr "vr") 0 [] 0 [] = Outcome.returned () [] ∧
    vr_handler blankConfig blankEnv 7 0 (cstr "vr") 1 [cstr "0"] 0 [] = Outcome.returned () [] ∧
    vr_handler blankConfig blankEnv 7 0 (cstr "vr") 1 [cstr "-1"] 0 [] = Outcome.returned () [] ∧
    vr_handler blankConfig blankEnv 7 0 (cstr "vr") 1 [cstr "3"] 0 [] = Outcome.returned () [] ∧
    vr_handler blankConfig blankEnv 7 0 (cstr "vr") 1 [cstr "abc"] 0 [] = Outcome.returned () [] :=
  ⟨by decide,
    vr_handler_ignores_other_pins [] (by simp) blankConfig blankEnv 7 0 0 (cstr "vr") [],
    vr_handler_ignores_other_pins [cstr "0"] (by simp; decide) blankConfig blankEnv 7 0 0
      (cstr "vr") [],
    vr_handler_ignores_other_pins [cstr "-1"] (by simp; decide) blankConfig blankEnv 7 0 0
      (cstr "vr") [],
    vr_handler_ignores_other_pins [cstr "3"] (by simp; decide) blankConfig blankEnv 7 0 0
      (cstr "vr") [],
    vr_handler_ignores_other_pins [cstr "abc"] (by simp; decide) blankConfig blankEnv 7 0 0
      (cstr "vr") []⟩

/-- Where the tick rate divides 1000 the period in milliseconds is exact. -/
theorem portTICK_RATE_MS_exact (cfg : Config) (hd : cfg.configTICK_RATE_HZ ∣ 1000) :
    0 < cfg.configTICK_RATE_HZ ∧ portTICK_RATE_MS cfg * cfg.configTICK_RATE_HZ = 1000 := by
  have hle : cfg.configTICK_RATE_HZ ≤ 1000 := Nat.le_of_dvd (by norm_num) hd
  have hpos : 0 < cfg.configTICK_RATE_HZ := Nat.pos_of_dvd_of_pos hd (by norm_num)
  refine ⟨hpos, ?_⟩
  unfold portTICK_RATE_MS
  rw [Nat.mod_eq_of_lt (by norm_num; omega)]
  exact Nat.div_mul_cancel hd

/-- Where the tick rate divides 1000, `ticks * portTICK_RATE_MS / 1000` taken
exactly is the elapsed time in seconds. -/
theorem elapsed_seconds_eq (cfg : Config) (ticks : Nat) (hd : cfg.configTICK_RATE_HZ ∣ 1000) :
    elapsed_seconds cfg.configTICK_RATE_HZ ticks =
      ((ticks * portTICK_RATE_MS cfg : Nat) : ℚ) / 1000 := by
  obtain ⟨hpos, hp⟩ := portTICK_RATE_MS_exact cfg hd
  have hq : (portTICK_RATE_MS cfg : ℚ) * (cfg.configTICK_RATE_HZ : ℚ) = 1000 := by
    exact_mod_cast hp
  have hz : (cfg.configTICK_RATE_HZ : ℚ) ≠ 0 := by exact_mod_cast hpos.ne'
  unfold elapsed_seconds
  rw [div_eq_div_iff hz (by norm_num)]
  push_cast
  linear_combination (-(ticks : ℚ)) * hq

/-- At any tick rate of at least one tick per second the whole seconds computed
from the truncated period do not run ahead of the elapsed time. -/
theorem uptime_le_elapsed (cfg : Config) (ticks : Nat) (hpos : 0 < cfg.configTICK_RATE_HZ)
    (hlt : cfg.configTICK_RATE_HZ < 2 ^ 32) :
    ((ticks * portTICK_RATE_MS cfg / 1000 : Nat) : ℚ) ≤
      elapsed_seconds cfg.configTICK_RATE_HZ ticks := by
  have hp : portTICK_RATE_MS cfg * cfg.configTICK_RATE_HZ ≤ 1000 := by
    unfold portTICK_RATE_MS
    rw [Nat.mod_eq_of_lt hlt]
    exact Nat.div_mul_le_self _ _
  have hq : (portTICK_RATE_MS cfg : ℚ) * (cfg.configTICK_RATE_HZ : ℚ) ≤ 1000 := by
    exact_mod_cast hp
  have hz : (0 : ℚ) < (cfg.configTICK_RATE_HZ : ℚ) := by exact_mod_cast hpos
  have ht : (0 : ℚ) ≤ (ticks : ℚ) := by positivity
  have h1 : ((ticks * portTICK_RATE_MS cfg / 1000 : Nat) : ℚ) ≤
      ((ticks * portTICK_RATE_MS cfg : Nat) : ℚ) / ((1000 : Nat) : ℚ) := Nat.cast_div_le
  have h2 : ((ticks * portTICK_RATE_MS cfg : Nat) : ℚ) / ((1000 : Nat) : ℚ) ≤
      elapsed_seconds cfg.configTICK_RATE_HZ ticks := by
    unfold elapsed_seconds
    rw [div_le_div_iff₀ (by norm_num) hz]
    push_cast
    nlinarith [mul_le_mul_of_nonneg_left hq ht]
  exact le_trans h1 h2

/-- C10, as stated, fails: at 300 ticks per second the period is truncated to
3 ms, and a read at tick count 1080000, when exactly 3600 seconds have
elapsed, sends 3240, which is not within 1 second of the elapsed time. -/
theorem vr_handler_uptime_short_at_300_hz :
    vr_handler ⟨[], [], [], [], 300⟩ ⟨0, 1080000, 0, true, 0, 0, 0, 0, 0, 0, ⟨[], []⟩, 0, 0, 1⟩
        7 0 (cstr "vr") 1 [cstr "2"] 0 [] =
      Outcome.returned () [Call.xTaskGetTickCount,
        Call.blynk_send 7 blynk_cmd_t.BLYNK_CMD_HARDWARE 0 "siL"
          [SendArg.s "vw", SendArg.i 2, SendArg.L 3240]] ∧
    elapsed_seconds 300 1080000 = 3600 ∧
    ¬ |((3240 : Nat) : ℚ) - elapsed_seconds 300 1080000| < 1 := by
  refine ⟨?_, ?_, ?_⟩
  · exact vr_handler_one ⟨[], [], [], [], 300⟩
      ⟨0, 1080000, 0, true, 0, 0, 0, 0, 0, 0, ⟨[], []⟩, 0, 0, 1⟩ 7 0 0 (cstr "vr") (cstr "2") [] []
  · norm_num [elapsed_seconds]
  · norm_num [elapsed_seconds, abs_lt]

/-- C10, amended: two reads of the uptime pin at 32-bit tick counts t1 <= t2,
at the same tick rate, send values u1 <= u2; each value is
floor(t * p / 1000) with p = portTICK_RATE_MS the truncated tick period in ms,
the product t * p fits 64 bits and the quotient fits the 32-bit unsigned
long, so nothing is lost.  Where the tick rate divides 1000 each value is
within 1 second of the elapsed time t / rate; at every rate of at least one
tick per second the value does not exceed the elapsed time. -/
theorem vr_handler_uptime_monotone (cfg : Config) (e1 e2 : Env)
    (h12 : e1.tick_count ≤ e2.tick_count) (h2 : e2.tick_count < 2 ^ 32)
    (c id data : Nat) (cmd : List Char) (rest : List (List Char)) (tr1 tr2 : Trace) :
    ∃ u1 u2 : Nat,
      vr_handler cfg e1 c id cmd ((cstr "2" :: rest).length : Int) (cstr "2" :: rest) data tr1 =
        Outcome.returned () (tr1 ++ [Call.xTaskGetTickCount,
          Call.blynk_send c blynk_cmd_t.BLYNK_CMD_HARDWARE 0 "siL"
            [SendArg.s "vw", SendArg.i 2, SendArg.L u1]]) ∧
      vr_handler cfg e2 c id cmd ((cstr "2" :: rest).length : Int) (cstr "2" :: rest) data tr2 =
        Outcome.returned () (tr2 ++ [Call.xTaskGetTickCount,
          Call.blynk_send c blynk_cmd_t.BLYNK_CMD_HARDWARE 0 "siL"
            [SendArg.s "vw", SendArg.i 2, SendArg.L u2]]) ∧
      u1 ≤ u2 ∧
      e1.tick_count * portTICK_RATE_MS cfg < 2 ^ 64 ∧
      e2.tick_count * portTICK_RATE_MS cfg < 2 ^ 64 ∧
      u1 = e1.tick_count * portTICK_RATE_MS cfg / 1000 ∧
      u2 = e2.tick_count * portTICK_RATE_MS cfg / 1000 ∧
      u1 < 2 ^ 32 ∧ u2 < 2 ^ 32 ∧
      (cfg.configTICK_RATE_HZ ∣ 1000 →
        |(u1 : ℚ) - elapsed_seconds cfg.configTICK_RATE_HZ e1.tick_count| < 1 ∧
        |(u2 : ℚ) - elapsed_seconds cfg.configTICK_RATE_HZ e2.tick_count| < 1) ∧
      (0 < cfg.configTICK_RATE_HZ → cfg.configTICK_RATE_HZ < 2 ^ 32 →
        (u1 : ℚ) ≤ elapsed_seconds cfg.configTICK_RATE_HZ e1.tick_count ∧
        (u2 : ℚ) ≤ elapsed_seconds cfg.configTICK_RATE_HZ e2.tick_count) := by
  have hp := portTICK_RATE_MS_le cfg
  have hx1 := uptime_value_exact e1.tick_count (portTICK_RATE_MS cfg) (by omega) hp
  have hx2 := uptime_value_exact e2.tick_count (portTICK_RATE_MS cfg) h2 hp
  refine ⟨e1.tick_count * portTICK_RATE_MS cfg / 1000,
    e2.tick_count * portTICK_RATE_MS cfg / 1000, ?_, ?_, ?_, hx1.1, hx2.1, rfl, rfl,
    hx1.2.1, hx2.2.1, ?_, ?_⟩
  · rw [vr_handler_one, if_neg (by decide), if_pos (by decide), hx1.2.2]
    rfl
  · rw [vr_handler_one, if_neg (by decide), if_pos (by decide), hx2.2.2]
    rfl
  · exact Nat.div_le_div_right (Nat.mul_le_mul_right _ h12)
  · intro hd
    rw [elapsed_seconds_eq cfg e1.tick_count hd, elapsed_seconds_eq cfg e2.tick_count hd]
    exact ⟨floor_within_one _, floor_within_one _⟩
  · intro hpos hlt
    exact ⟨uptime_le_elapsed cfg e1.tick_count hpos hlt,
      uptime_le_elapsed cfg e2.tick_count hpos hlt⟩

/-- Witness of C10 amended: at 100 ticks per second, a rate dividing 1000,
reads at tick counts 12599 (125.99 s elapsed) and 4294967295 (the largest
32-bit count) send 125 and 42949672, each within 1 second of the elapsed
time. -/
theorem vr_handler_uptime_monotone_witness :
    (12599 ≤ 4294967295) ∧ (4294967295 < 2 ^ 32) ∧ (100 ∣ 1000) ∧
    ∃ u1 u2 : Nat,
      vr_handler ⟨[], [], [], [], 100⟩ ⟨0, 12599, 0, true, 0, 0, 0, 0, 0, 0, ⟨[], []⟩, 0, 0, 1⟩
          7 0 (cstr "vr") 1 [cstr "2"] 0 [] =
        Outcome.returned () [Call.xTaskGetTickCount,
          Call.blynk_send 7 blynk_cmd_t.BLYNK_CMD_HARDWARE 0 "siL"
            [SendArg.s "vw", SendArg.i 2, SendArg.L u1]] ∧
      vr_handler ⟨[], [], [], [], 100⟩
          ⟨0, 4294967295, 0, true, 0, 0, 0, 0, 0, 0, ⟨[], []⟩, 0, 0, 1⟩
          7 0 (cstr "vr") 1 [cstr "2"] 0 [] =
        Outcome.returned () [Call.xTaskGetTickCount,
          Call.blynk_send 7 blynk_cmd_t.BLYNK_CMD_HARDWARE 0 "siL"
            [SendArg.s "vw", SendArg.i 2, SendArg.L u2]] ∧
      u1 ≤ u2 ∧ u1 = 125 ∧ u2 = 42949672 ∧
      |(u1 : ℚ) - elapsed_seconds 100 12599| < 1 ∧
      |(u2 : ℚ) - elapsed_seconds 100 4294967295| < 1 := by
  obtain ⟨u1, u2, r1, r2, hle, _, _, hu1, hu2, _, _, hacc, _⟩ :=
    vr_handler_uptime_monotone ⟨[], [], [], [], 100⟩
      ⟨0, 12599, 0, true, 0, 0, 0, 0, 0, 0, ⟨[], []⟩, 0, 0, 1⟩
      ⟨0, 4294967295, 0, true, 0, 0, 0, 0, 0, 0, ⟨[], []⟩, 0, 0, 1⟩
      (by norm_num) (by norm_num) 7 0 0 (cstr "vr") [] [] []
  have hd : (100 : Nat) ∣ 1000 := by norm_num
  exact ⟨by norm_num, by norm_num, hd, u1, u2, r1, r2, hle, hu1, hu2, (hacc hd).1, (hacc hd).2⟩

/-! ## Network life cycle -/

theorem event_handler_disconnected (env : Env) (arg : Nat) (t : Trace) :
    event_handler env arg disconnected t =
      Outcome.returned ESP_OK (t ++ [Call.esp_wifi_connect]) := rfl

theorem deliver_disconnected (envs : List Env) : ∀ t : Trace,
    deliver (envs.map fun env => (env, disconnected)) t =
      Outcome.returned (List.replicate envs.length ESP_OK)
        (t ++ List.replicate envs.length Call.esp_wifi_connect) := by
  induction envs with
  | nil => intro t; simp [deliver]
  | cons env envs ih =>
    intro t
    simp only [List.map_cons, deliver, event_handler_disconnected, Outcome.andThen, ih,
      List.length_cons, List.replicate_succ, List.append_assoc, List.singleton_append]

/-- C4: n Disassociated events delivered to event_handler after any earlier
calls t make exactly n further calls, each of them esp_wifi_connect, one per
event, so the number of association attempts grows by exactly n; every
delivery returns ESP_OK; there is no delay and no count that stops the
retries.  Five events give exactly five attempts. -/
theorem disconnected_events_reassociate (envs : List Env) (t : Trace) :
    deliver (envs.map fun env => (env, disconnected)) t =
      Outcome.returned (List.replicate envs.length ESP_OK)
        (t ++ List.replicate envs.length Call.esp_wifi_connect) ∧
    (t ++ List.replicate envs.length Call.esp_wifi_connect).count Call.esp_wifi_connect =
      t.count Call.esp_wifi_connect + envs.length ∧
    (∀ (env : Env) (arg : Nat),
      event_handler env arg disconnected t =
        Outcome.returned ESP_OK (t ++ [Call.esp_wifi_connect])) ∧
    (∀ e1 e2 e3 e4 e5 : Env,
      deliver [(e1, disconnected), (e2, disconnected), (e3, disconnected), (e4, disconnected),
          (e5, disconnected)] t =
        Outcome.returned [ESP_OK, ESP_OK, ESP_OK, ESP_OK, ESP_OK]
          (t ++ [Call.esp_wifi_connect, Call.esp_wifi_connect, Call.esp_wifi_connect,
            Call.esp_wifi_connect, Call.esp_wifi_connect])) := by
  refine ⟨deliver_disconnected envs t, ?_, fun env arg => event_handler_disconnected env arg t, ?_⟩
  · simp [List.count_append, List.count_replicate]
  · intro e1 e2 e3 e4 e5
    exact deliver_disconnected [e1, e2, e3, e4, e5] t

/-! ## Boot -/

theorem first_byte_strlcpy (src : List Char) (size : Nat) (h : first_byte src = 0) :
    strlcpy src size = [] := by
  cases src with
  | nil => simp [strlcpy]
  | cons ch tl =>
    simp only [first_byte] at h
    simp [strlcpy, List.takeWhile, h]

/-- With no stored SSID and no default SSID, `wifi_conn_init` ends after its
four set-up calls, or at the first of them that fails. -/
theorem wifi_conn_init_blank (cfg : Config) (env : Env) (t : Trace)
    (h1 : first_byte env.stored_config.ssid = 0) (h2 : first_byte cfg.WIFI_SSID = 0) :
    wifi_conn_init cfg env t =
      if env.esp_wifi_init_rc = ESP_OK then
        if env.esp_wifi_set_storage_rc = ESP_OK then
          if env.esp_wifi_set_mode_rc = ESP_OK then
            if env.esp_wifi_get_config_rc = ESP_OK then
              Outcome.returned () (t ++ [Call.esp_wifi_init, Call.esp_wifi_set_storage,
                Call.esp_wifi_set_mode, Call.esp_wifi_get_config])
            else Outcome.aborted (t ++ [Call.esp_wifi_init, Call.esp_wifi_set_storage,
                Call.esp_wifi_set_mode, Call.esp_wifi_get_config])
          else Outcome.aborted (t ++ [Call.esp_wifi_init, Call.esp_wifi_set_storage,
                Call.esp_wifi_set_mode])
        else Outcome.aborted (t ++ [Call.esp_wifi_init, Call.esp_wifi_set_storage])
      else Outcome.aborted (t ++ [Call.esp_wifi_init]) := by
  have hb : first_byte ([] : List Char) = 0 := rfl
  unfold wifi_conn_init
  simp only [ESP_ERROR_CHECK, first_byte_strlcpy cfg.WIFI_SSID 32 h2, h1, hb, if_true]
  by_cases a : env.esp_wifi_init_rc = ESP_OK
  · by_cases b : env.esp_wifi_set_storage_rc = ESP_OK
    · by_cases c : env.esp_wifi_set_mode_rc = ESP_OK
      · by_cases d : env.esp_wifi_get_config_rc = ESP_OK
        · simp [a, b, c, d, Outcome.andThen]
        · simp [a, b, c, d, Outcome.andThen]
      · simp [a, b, c, Outcome.andThen]
    · simp [a, b, Outcome.andThen]
  · simp [a, Outcome.andThen]

/-- C9, as stated, fails: with no SSID in flash and an empty default SSID,
and every call succeeding, wifi_conn_init returns to app_main without
aborting, and app_main goes on to set up the Blynk client and start it. -/
theorem empty_credentials_do_not_abort :
    first_byte blankEnv.stored_config.ssid = 0 ∧ first_byte blankConfig.WIFI_SSID = 0 ∧
    wifi_conn_init blankConfig blankEnv [] =
      Outcome.returned () [Call.esp_wifi_init, Call.esp_wifi_set_storage, Call.esp_wifi_set_mode,
        Call.esp_wifi_get_config] ∧
    app_main blankConfig blankEnv [] =
      Outcome.returned () [Call.adc1_config_width 1, Call.adc1_config_channel_atten 4,
        Call.ledc_timer_config 10 1000 PWM_MODE 0,
        Call.ledc_channel_config PWM_CHANNEL 0 12 PWM_MODE 0,
        Call.nvs_flash_init, Call.tcpip_adapter_init, Call.esp_event_loop_init,
        Call.esp_wifi_init, Call.esp_wifi_set_storage, Call.esp_wifi_set_mode,
        Call.esp_wifi_get_config,
        Call.malloc, Call.blynk_init 1,
        Call.blynk_set_options 1 (cstr "token") (cstr "blynk-cloud.com"),
        Call.blynk_set_state_handler 1, Call.blynk_set_handler 1 "vw",
        Call.blynk_set_handler 1 "vr", Call.blynk_start 1] := by
  refine ⟨by decide, by decide, by decide, by decide⟩

/-- C9, amended: with an empty SSID in flash and an empty default SSID,
wifi_conn_init never hands a configuration to the WiFi library and never
starts the interface, however it ends; when its four set-up calls succeed it
returns normally, and app_main (flash and event loop initialised) then goes
on to configure the Blynk client and start it. -/
theorem empty_credentials_skip_wifi_start (cfg : Config) (env : Env) (t : Trace)
    (h1 : first_byte env.stored_config.ssid = 0) (h2 : first_byte cfg.WIFI_SSID = 0) :
    (wifi_conn_init cfg env t).calls.filter usesWifiConfig = t.filter usesWifiConfig ∧
    (env.esp_wifi_init_rc = ESP_OK → env.esp_wifi_set_storage_rc = ESP_OK →
      env.esp_wifi_set_mode_rc = ESP_OK → env.esp_wifi_get_config_rc = ESP_OK →
      wifi_conn_init cfg env t =
        Outcome.returned () (t ++ [Call.esp_wifi_init, Call.esp_wifi_set_storage,
          Call.esp_wifi_set_mode, Call.esp_wifi_get_config]) ∧
      (env.nvs_flash_init_rc = ESP_OK → env.esp_event_loop_init_rc = ESP_OK →
        app_main cfg env t =
          Outcome.returned () (init_pwm (init_adc t) ++ [Call.nvs_flash_init,
            Call.tcpip_adapter_init, Call.esp_event_loop_init,
            Call.esp_wifi_init, Call.esp_wifi_set_storage, Call.esp_wifi_set_mode,
            Call.esp_wifi_get_config,
            Call.malloc, Call.blynk_init env.client,
            Call.blynk_set_options env.client cfg.BLYNK_TOKEN cfg.BLYNK_SERVER,
            Call.blynk_set_state_handler env.client, Call.blynk_set_handler env.client "vw",
            Call.blynk_set_handler env.client "vr", Call.blynk_start env.client]))) := by
  constructor
  · rw [wifi_conn_init_blank cfg env t h1 h2]
    split_ifs <;> simp [Outcome.calls, List.filter_append, usesWifiConfig]
  · intro a b c d
    have hw : ∀ t0 : Trace, wifi_conn_init cfg env t0 =
        Outcome.returned () (t0 ++ [Call.esp_wifi_init, Call.esp_wifi_set_storage,
          Call.esp_wifi_set_mode, Call.esp_wifi_get_config]) := by
      intro t0
      rw [wifi_conn_init_blank cfg env t0 h1 h2, if_pos a, if_pos b, if_pos c, if_pos d]
    refine ⟨hw t, ?_⟩
    intro e f
    unfold app_main
    simp [ESP_ERROR_CHECK, e, f, Outcome.andThen, hw]

/-- Witness of C9 amended: the blank build on a device with nothing stored. -/
theorem empty_credentials_skip_wifi_start_witness :
    first_byte blankEnv.stored_config.ssid = 0 ∧ first_byte blankConfig.WIFI_SSID = 0 ∧
    (wifi_conn_init blankConfig blankEnv []).calls.filter usesWifiConfig = [] :=
  ⟨by decide, by decide,
    (empty_credentials_skip_wifi_start blankConfig blankEnv [] (by decide) (by decide)).1⟩

end EspBlynk
